import Mathlib

/-!
Verification of the route-to-content resolution layer of `src/app/server.py`
(a Flask application serving a portfolio website, with a Dash chart
sub-application mounted through werkzeug's DispatcherMiddleware).

The embedding models:
* the route table registered by the `@app.route` decorators (seven GET
  routes, each rendering a template file relative to the configured
  template folder `/var/www/htmx_website/`);
* the implicit static-file route Flask registers for
  `static_folder="/var/www/htmx_website/"`: because the folder ends in a
  slash, `os.path.basename` yields the empty string, `static_url_path`
  becomes `""` and the rule is `/<path:filename>` — a catch-all that serves
  files from the static folder through `send_static_file` (werkzeug
  `safe_join`: posix `normpath` followed by rejection of absolute names,
  `".."` and names starting with `"../"`);
* Flask/werkzeug dispatch: a rule matching the path but not the method
  gives 405 Method Not Allowed; no rule matching the path raises NotFound,
  handled by the registered `@app.errorhandler(404)` which renders
  `404.html` with status 404; an exception escaping a handler (in
  particular jinja's TemplateNotFound when a template file is missing)
  surfaces as a 500 Internal Server Error, not as the 404 handler.

The filesystem is abstract: `FS` maps an absolute path to `some content`
when a readable regular file is there and `none` otherwise (missing file
or unreadable path — the code never distinguishes them before failing).

werkzeug's two canonicalisation redirects are modelled: the strict-slash
redirect (a request for a trailing-slash rule's pattern minus its slash
is answered with a 308 redirect to the slashed path, raised during rule
matching) and the merge-slashes redirect (a path containing duplicate
slashes that matches nothing directly is re-matched with the slashes
merged and, when the merged path matches, answered with a 308 redirect
to it). Both redirects are modelled as decided before the method check,
which is werkzeug's list-matcher behaviour (RequestSlash/RequestPath are
raised inside Rule.match, before MapAdapter filters on the method); no
theorem below depends on the redirect/405 order for method-blocked
redirect paths, where werkzeug versions differ.
-/

/-- HTTP methods relevant to this application. -/
inductive Method
  | GET
  | POST
deriving DecidableEq

/-- A resolved HTTP response: status code and body. -/
structure Response where
  status : Nat
  body : String
deriving DecidableEq

/-- Abstract filesystem: content of the readable regular file at an
absolute path, or `none` when absent/unreadable. -/
def FS : Type := String → Option String

/-- The static and template folder configured on line 10-11 of
`src/app/server.py`. -/
def webRoot : String := "/var/www/htmx_website/"

/-- The route table registered by the `@app.route` decorators
(lines 14-40): URL path pattern mapped to the template name passed to
`render_template`. All of them accept only GET. -/
def routeTable : List (String × String) :=
  [("/", "index.html"),
   ("/header/", "templates/header.html"),
   ("/footer/", "templates/footer.html"),
   ("/summary/", "templates/summary.html"),
   ("/load-home/", "templates/home.html"),
   ("/mission3/", "mission3/mission3.html"),
   ("/mission3/Mission3.html", "mission3/Mission3.html")]

/-- Body of werkzeug's default 500 Internal Server Error page (opaque). -/
def internalServerErrorBody : String := "Internal Server Error"

/-- Body of werkzeug's default 405 Method Not Allowed page (opaque). -/
def methodNotAllowedBody : String := "Method Not Allowed"

/-- Jinja template lookup performed by `render_template`: the template
name is resolved against the template folder and the file is read. The
templates of this application contain no placeholders, so rendering is
the file content itself. `none` models jinja raising TemplateNotFound. -/
def renderTemplate (fs : FS) (name : String) : Option String :=
  fs (webRoot ++ name)

/-- Exact-rule matching in the registered table: first registered rule
whose path pattern equals the request path. -/
def findExactIn (table : List (String × String)) (path : String) : Option String :=
  match table.find? (fun r => r.fst == path) with
  | some r => some r.snd
  | none => none

/-- Exact-rule matching against the startup route table. -/
def findExact (path : String) : Option String :=
  findExactIn routeTable path

/-- Matching of the implicit static rule `/<path:filename>`: werkzeug's
`path` converter captures everything after the leading slash provided the
first captured character is not itself a slash. -/
def staticMatch (path : String) : Option String :=
  match path.toList with
  | '/' :: c :: rest => if c = '/' then none else some (String.mk (c :: rest))
  | _ => none

/-- Split a character list on a separator, keeping empty segments (the
behaviour of Python's `str.split(sep)`). -/
def splitOnChar (sep : Char) : List Char → List Char → List String
  | cur, [] => [String.mk cur.reverse]
  | cur, c :: rest =>
    if c = sep then String.mk cur.reverse :: splitOnChar sep [] rest
    else splitOnChar sep (c :: cur) rest

/-- Join segments with `'/'` separators. -/
def joinSlash : List String → String
  | [] => ""
  | [s] => s
  | s :: rest => s ++ "/" ++ joinSlash rest

/-- One step of posix `normpath` segment processing: drop empty and `"."`
segments; `".."` pops the previous segment unless there is none (or it is
itself a kept `".."`), in which case it is kept. -/
def normSegStep (acc : List String) (seg : String) : List String :=
  if seg = "" || seg = "." then acc
  else if seg = ".." then
    match acc with
    | [] => [".."]
    | top :: rest => if top = ".." then ".." :: acc else rest
  else seg :: acc

/-- Python `posixpath.normpath` restricted to the inputs reaching it here
(relative names): collapse `"."`, empty and resolvable `".."` segments;
an empty result is `"."`. -/
def posixNormpath (p : String) : String :=
  let segs := ((splitOnChar '/' [] p.toList).foldl normSegStep []).reverse
  if segs.isEmpty then "." else joinSlash segs

/-- The rejection test of werkzeug's `safe_join` applied to the normalised
name: absolute names, `".."` and names starting with `"../"` escape the
root and are rejected. -/
def normEscapes (n : String) : Bool :=
  List.isPrefixOf ("/".toList) n.toList || n == ".." ||
    List.isPrefixOf ("../".toList) n.toList

/-- Posix path join as used by `safe_join` (the directory here always ends
in a slash). -/
def posixJoin (a b : String) : String :=
  if List.isPrefixOf ("/".toList) b.toList then b
  else if a == "" || List.isSuffixOf ("/".toList) a.toList then a ++ b
  else a ++ "/" ++ b

/-- werkzeug `safe_join`: normalise the name, reject it if it escapes the
directory, otherwise join. -/
def safe_join (directory filename : String) : Option String :=
  let n := if filename == "" then filename else posixNormpath filename
  if normEscapes n then none else some (posixJoin directory n)

/-- Flask `send_static_file` for this application: `safe_join` the static
folder with the captured filename; a rejected name or a missing file
raises NotFound (modelled as `none`). -/
def send_static_file (fs : FS) (filename : String) : Option String :=
  match safe_join webRoot filename with
  | none => none
  | some p => fs p

/-- The `@app.errorhandler(404)` handler `not_found` (lines 43-45):
render `404.html` with status 404; if that template is itself missing,
the handler raises and a 500 surfaces. -/
def notFoundResponse (fs : FS) : Response :=
  match renderTemplate fs "404.html" with
  | some b => ⟨404, b⟩
  | none => ⟨500, internalServerErrorBody⟩

/-- Strip one trailing slash: `some` of the shortened string when the
input ends in `'/'`, `none` otherwise. -/
def stripTrailingSlash (s : String) : Option String :=
  match s.toList.reverse with
  | '/' :: rest => some (String.mk rest.reverse)
  | _ => none

/-- werkzeug's RequestSlash condition for this rule table: some
registered trailing-slash rule's pattern minus its slash equals the
path, so matching raises RequestSlash and the adapter answers with a
redirect to the slashed path. -/
def slashRedirects (table : List (String × String)) (path : String) : Bool :=
  table.any (fun r => stripTrailingSlash r.fst == some path)

/-- Collapse every run of two or more slashes to one (Python
`re.sub("/{2,}", "/", path)`, werkzeug's merge_slashes rewrite). The
Bool argument records whether the previous kept character was a slash. -/
def mergeSlashesAux : Bool → List Char → List Char
  | _, [] => []
  | prevSlash, c :: rest =>
    if c = '/' then
      if prevSlash then mergeSlashesAux true rest
      else '/' :: mergeSlashesAux true rest
    else c :: mergeSlashesAux false rest

/-- Merge duplicate slashes in a path. -/
def mergeSlashes (p : String) : String :=
  String.mk (mergeSlashesAux false p.toList)

/-- Body of werkzeug's redirect page (opaque apart from the target). -/
def redirectBody (loc : String) : String := "Redirecting to " ++ loc

/-- Whether some rule pattern of the application matches the path: an
exact rule, a trailing-slash rule minus its slash (RequestSlash), or the
implicit static catch-all. Used for the merge-slashes re-match. -/
def someRuleMatches (table : List (String × String)) (path : String) : Bool :=
  (findExactIn table path).isSome || slashRedirects table path ||
    (staticMatch path).isSome

/-- Full request resolution of the Flask application, parameterised by
the route table: exact rules are tried before the implicit static rule
(werkzeug orders rules without converter arguments first); a rule whose
path matches but whose method does not yields 405; a trailing-slash
rule's pattern minus its slash raises RequestSlash during matching and
yields a 308 redirect to the slashed path; a handler whose template
file is missing yields 500 (TemplateNotFound is not an HTTPException
and is not routed to the 404 handler); a missing static file reaches
the 404 handler; a path matching nothing directly is re-matched with
duplicate slashes merged — a 308 redirect to the merged path when that
matches some rule, the 404 handler otherwise. -/
def resolveWith (fs : FS) (table : List (String × String)) (m : Method) (path : String) : Response :=
  match findExactIn table path with
  | some tmpl =>
    if m = Method.GET then
      match renderTemplate fs tmpl with
      | some b => ⟨200, b⟩
      | none => ⟨500, internalServerErrorBody⟩
    else ⟨405, methodNotAllowedBody⟩
  | none =>
    if slashRedirects table path then ⟨308, redirectBody (path ++ "/")⟩
    else
      match staticMatch path with
      | some fname =>
        if m = Method.GET then
          match send_static_file fs fname with
          | some b => ⟨200, b⟩
          | none => notFoundResponse fs
        else ⟨405, methodNotAllowedBody⟩
      | none =>
        let merged := mergeSlashes path
        if merged = path then notFoundResponse fs
        else if someRuleMatches table merged then ⟨308, redirectBody merged⟩
        else notFoundResponse fs

/-- Request resolution against the startup route table. -/
def resolve (fs : FS) (m : Method) (path : String) : Response :=
  resolveWith fs routeTable m path

/-- A filesystem holding only the 404 template, used to exercise missing
target files. -/
def fsOnly404 : FS :=
  fun p => if p = "/var/www/htmx_website/404.html" then some "<h1>Not Found</h1>" else none

/-- A filesystem with all seven route templates present and non-empty,
the 404 template, and (to exercise traversal) an out-of-root secret at
`/etc/passwd`. -/
def fsDeployed : FS := fun p =>
  if p = "/var/www/htmx_website/index.html" then some "<html>home</html>"
  else if p = "/var/www/htmx_website/templates/header.html" then some "<header></header>"
  else if p = "/var/www/htmx_website/templates/footer.html" then some "<footer></footer>"
  else if p = "/var/www/htmx_website/templates/summary.html" then some "<section>summary</section>"
  else if p = "/var/www/htmx_website/templates/home.html" then some "<div>home</div>"
  else if p = "/var/www/htmx_website/mission3/mission3.html" then some "<html>m3</html>"
  else if p = "/var/www/htmx_website/mission3/Mission3.html" then some "<html>nb</html>"
  else if p = "/var/www/htmx_website/404.html" then some "<h1>Not Found</h1>"
  else if p = "/etc/passwd" then some "root:x:0:0:root:/root:/bin/sh"
  else none

/-! ## Stateful server model (for statelessness of resolution)

The Flask application object is the only module-level state the handlers
can see; its url_map is populated once at import time (the decorators on
lines 14-40) and no handler body assigns to any module-level or
application-level name — each handler only calls `render_template` and
returns. The server is therefore modelled as a state machine whose state
is the route table, with the step function read from the handler bodies:
it produces the response and leaves the table exactly as the handlers
leave it. -/

/-- One request step of the running server: resolve against the current
table; no handler mutates the table, so it is returned as the handlers
leave it — unchanged. -/
def serverStep (fs : FS) (table : List (String × String)) (m : Method) (p : String) :
    Response × List (String × String) :=
  (resolveWith fs table m p, table)

/-- Run a sequence of requests through the server, threading the state. -/
def runRequests (fs : FS) (table : List (String × String)) :
    List (Method × String) → List (String × String)
  | [] => table
  | r :: rs => runRequests fs (serverStep fs table r.fst r.snd).snd rs

/-! ## DispatcherMiddleware model (delegation to the Dash sub-app)

`create_app` (lines 69-82) wraps the Flask WSGI app in werkzeug's
DispatcherMiddleware with the single mount
`{'/mission3/nutriscore': dash_mission3.server}`. The middleware splits
PATH_INFO on `'/'` from the right until the script part is a mount key
(falling back to the wrapped app), sets SCRIPT_NAME/PATH_INFO
accordingly and calls the chosen app, returning its response verbatim.
URL paths are represented by their slash-separated segment lists
(`"/a/b"` is `["a", "b"]`). The sub-application is opaque: any function
from requests to responses. -/

/-- A WSGI request as seen by the middleware: method, SCRIPT_NAME and
PATH_INFO as segment lists, and the request body. -/
structure WsgiRequest where
  method : Method
  scriptName : List String
  pathInfo : List String
  body : String

/-- An opaque WSGI application. -/
def WsgiApp : Type := WsgiRequest → Response

/-- The mount-search loop of DispatcherMiddleware, on the script part in
reversed segment order (chopping the last segment is structural
recursion on the reversed list). The accumulator is the PATH_INFO being
rebuilt from the chopped segments. -/
def findMountRev (mounts : List (List String × WsgiApp)) (dflt : WsgiApp) :
    List String → List String → WsgiApp × List String × List String
  | [], pinfo =>
    (match mounts.find? (fun e => e.fst == ([] : List String)) with
     | some e => e.snd
     | none => dflt, [], pinfo)
  | x :: rev, pinfo =>
    match mounts.find? (fun e => e.fst == (x :: rev).reverse) with
    | some e => (e.snd, (x :: rev).reverse, pinfo)
    | none => findMountRev mounts dflt rev (x :: pinfo)

/-- DispatcherMiddleware call: find the mounted app for the request's
PATH_INFO, shift the matched mount prefix onto SCRIPT_NAME, and invoke
the app on the rewritten environ; its response is returned as-is. -/
def dispatch (mounts : List (List String × WsgiApp)) (dflt : WsgiApp)
    (req : WsgiRequest) : Response :=
  let r := findMountRev mounts dflt req.pathInfo.reverse []
  r.fst ⟨req.method, req.scriptName ++ r.snd.fst, r.snd.snd, req.body⟩

/-- The mount table built in `create_app` (line 77): the Dash server is
mounted at `/mission3/nutriscore`. -/
def mission3Mounts (sub : WsgiApp) : List (List String × WsgiApp) :=
  [(["mission3", "nutriscore"], sub)]

/-- The combined application returned by `create_app`, parameterised by
the (opaque) Dash sub-application and the wrapped Flask app. -/
def create_app_dispatch (sub flaskApp : WsgiApp) (req : WsgiRequest) : Response :=
  dispatch (mission3Mounts sub) flaskApp req

/-! ## Python-level models: module load and the application factory -/

/-- Whether a character may appear in a Python identifier (ASCII core). -/
def isPyIdentChar (c : Char) : Bool := c.isAlpha || c.isDigit || c = '_'

/-- Whether a string is a Python identifier. -/
def isPyIdent (s : String) : Bool :=
  match s.toList with
  | [] => false
  | c :: rest => (c.isAlpha || c = '_') && rest.all isPyIdentChar

/-- Whether a string is a syntactically valid target of a Python
`from ... import` statement: one or more dot-separated identifiers. -/
def isValidModuleRef (s : String) : Bool :=
  (splitOnChar '.' [] s.toList).all isPyIdent

/-- The module targets of the import statements on lines 1-6 of
`src/app/server.py`, in source order. The last one is a filesystem path
pasted where a module name belongs. -/
def moduleRefTargets : List String :=
  ["flask", "dash", "werkzeug.middleware.dispatcher", "werkzeug.serving",
   "pandas", "/var/www/htmx_website/mission3/scripts/plot_nutriscore"]

/-- Whether the module body of `src/app/server.py` parses: Python
compiles the whole file before executing it, so every import target must
be syntactically valid for any handler ever to run. -/
def serverModuleParses : Bool := moduleRefTargets.all isValidModuleRef

/-- Errors of the Python execution model used for the factory functions. -/
inductive PyError
  | nameError (n : String)
  | fileNotFound (p : String)
deriving DecidableEq

/-- A statement of the factory body, abstracted to the global/local names
it reads, the file it opens (if any), and the names it binds. -/
structure PyStmt where
  reads : List String
  readsFile : Option String
  binds : List String

/-- Execute a statement list: the first name read that is not in scope
raises NameError (Python resolves names at use time); a file read of an
absent file raises FileNotFoundError; otherwise bindings accumulate. -/
def runBody (fs : FS) : List String → List PyStmt → Except PyError Unit
  | _, [] => Except.ok ()
  | env, st :: rest =>
    match st.reads.find? (fun n => !(env.contains n)) with
    | some n => Except.error (PyError.nameError n)
    | none =>
      match st.readsFile with
      | none => runBody fs (env ++ st.binds) rest
      | some p =>
        match fs p with
        | none => Except.error (PyError.fileNotFound p)
        | some _ => runBody fs (env ++ st.binds) rest

/-- The names the module body of `src/app/server.py` would put in scope
if its imports succeeded (imported names on lines 1-6 plus the top-level
definitions). Neither `Output` nor `Input` is among them: line 2 imports
only `Dash`, `html` and `dcc` from dash. -/
def serverModuleScope : List String :=
  ["Flask", "render_template", "Dash", "html", "dcc", "DispatcherMiddleware",
   "run_simple", "pd", "create_layout", "update_graph_callback",
   "update_nutriscore_legend", "app", "index", "header", "footer", "summary",
   "load_home", "mission3", "mission3_notebook", "not_found",
   "create_dash_mission3", "create_app", "__name__"]

/-- The CSV path read by `create_dash_mission3` (line 51). -/
def nutriscoreCsvPath : String := "/var/www/htmx_website/data/nutrition_combination_log.csv"

/-- The body of `create_dash_mission3` (lines 49-65), statement by
statement: assign the CSV path; `pd.read_csv`; construct the Dash app;
assign its layout; register the callback — whose argument list evaluates
`Output(...)` and `Input(...)` first. -/
def create_dash_mission3_body : List PyStmt :=
  [⟨[], none, ["nutriscore_directory"]⟩,
   ⟨["pd", "nutriscore_directory"], some nutriscoreCsvPath, ["df"]⟩,
   ⟨["Dash", "__name__", "flask_app"], none, ["dash_app"]⟩,
   ⟨["dash_app", "create_layout"], none, []⟩,
   ⟨["dash_app", "Output", "Input", "update_graph_callback", "df"], none, []⟩]

/-- Run `create_dash_mission3(flask_app)`: its body executes in the
module scope extended with the parameter `flask_app`. -/
def create_dash_mission3_run (fs : FS) : Except PyError Unit :=
  runBody fs (serverModuleScope ++ ["flask_app"]) create_dash_mission3_body

/-- Run `create_app()` (lines 69-82): it calls `create_dash_mission3`
first; only if that returns does it build the DispatcherMiddleware (a
pure constructor) and return. -/
def create_app_run (fs : FS) : Except PyError Unit :=
  match create_dash_mission3_run fs with
  | Except.error e => Except.error e
  | Except.ok _ => Except.ok ()

/-! ## Handlers modelled from the spec

The spec's route table lists `GET /scroll-left`, `GET /scroll-right` and
`POST /submit-feedback`; they belong to repository variants that are not
under `src/` (the one file there, `src/app/server.py`, does not register
them), so they are modelled from the spec's words. -/

/-- The structured scroll payload of the spec's scroll routes. -/
structure ScrollPayload where
  scroll_distance : Int
deriving DecidableEq

/-- Modelled from the spec: the scroll routes, absent from
`src/app/server.py` — "`GET /scroll-left` returns a structured payload
with `scroll_distance == -320`; `GET /scroll-right` returns
`scroll_distance == 320`", both InlineFragment routes with status 200. -/
def resolveScroll (m : Method) (path : String) : Option (Nat × ScrollPayload) :=
  if m = Method.GET && path == "/scroll-left" then some (200, ⟨-320⟩)
  else if m = Method.GET && path == "/scroll-right" then some (200, ⟨320⟩)
  else none

/-- HTML-escape one character (the markup-significant ASCII set). -/
def escapeChar (c : Char) : String :=
  if c = '&' then "&amp;"
  else if c = '<' then "&lt;"
  else if c = '>' then "&gt;"
  else if c = '"' then "&quot;"
  else String.mk [c]

/-- HTML-escape a string, character by character. -/
def htmlEscape (s : String) : String :=
  s.toList.foldl (fun acc c => acc ++ escapeChar c) ""

/-- Modelled from the spec: the `POST /submit-feedback` handler, absent
from `src/app/server.py` — read the form fields `name` and `feedback`,
substituting the empty string for a missing field; escape both
user-supplied values; interpolate them into a templated acknowledgement
sentence returned with status 200. -/
def submit_feedback (name feedback : Option String) : Response :=
  let n := htmlEscape (name.getD "")
  let f := htmlEscape (feedback.getD "")
  ⟨200, "Thank you, " ++ n ++ "! Your feedback: " ++ f⟩

/-- Substring test on strings (character-list infix search). -/
def containsSub (hay needle : String) : Bool :=
  go hay.toList needle.toList
where
  go : List Char → List Char → Bool
    | [], nd => nd.isEmpty
    | c :: t, nd => nd.isPrefixOf (c :: t) || go t nd

/-- A filesystem in which every path holds the one-byte file `"x"`. -/
def fsConst : FS := fun _ => some "x"

/-! ## Theorems -/

/-- If an exact rule matches and its template file is readable, the
handler returns 200 with the file content. -/
theorem resolve_exact_found (fs : FS) (path tmpl b : String)
    (hfind : findExact path = some tmpl) (hread : renderTemplate fs tmpl = some b) :
    resolve fs Method.GET path = ⟨200, b⟩ := by
  unfold resolve resolveWith
  rw [show findExactIn routeTable path = some tmpl from hfind]
  simp [hread]

/-- If an exact rule matches and its template file is missing, the
TemplateNotFound exception surfaces as a 500. -/
theorem resolve_exact_missing (fs : FS) (path tmpl : String)
    (hfind : findExact path = some tmpl) (hread : renderTemplate fs tmpl = none) :
    resolve fs Method.GET path = ⟨500, internalServerErrorBody⟩ := by
  unfold resolve resolveWith
  rw [show findExactIn routeTable path = some tmpl from hfind]
  simp [hread]

/-- C1 counterexample: with the 404 template present but the header
template absent, `GET /header/` yields a 500 internal error, not the 404
fragment — refuting the claim that a missing target file always degrades
to the fixed 404 response. -/
theorem missing_template_yields_500_counterexample :
    resolve fsOnly404 Method.GET "/header/" = ⟨500, internalServerErrorBody⟩ ∧
    (resolve fsOnly404 Method.GET "/header/").status ≠ 404 := by decide

/-- C1 (amended): for every registered template route whose target file
is absent or unreadable, resolution returns the 500 internal error
response (TemplateNotFound escapes the handler); the fixed 404 fragment
is not produced in this case. -/
theorem missing_template_route_yields_500 (fs : FS) (path tmpl : String)
    (hmem : (path, tmpl) ∈ routeTable) (habs : fs (webRoot ++ tmpl) = none) :
    resolve fs Method.GET path = ⟨500, internalServerErrorBody⟩ := by
  fin_cases hmem <;> exact resolve_exact_missing fs _ _ (by decide) habs

/-- C1 witness: the amended theorem applied to `GET /footer/` over a
filesystem holding only the 404 template. -/
theorem missing_template_route_yields_500_witness :
    resolve fsOnly404 Method.GET "/footer/" = ⟨500, internalServerErrorBody⟩ :=
  missing_template_route_yields_500 fsOnly404 "/footer/" "templates/footer.html"
    (by decide) (by decide)

/-- C3 counterexample: `POST /` matches no registered route (all seven
routes accept only GET), yet resolution returns the framework's 405
Method Not Allowed error, not the 404 fragment. -/
theorem post_root_yields_405_counterexample :
    resolve fsDeployed Method.POST "/" = ⟨405, methodNotAllowedBody⟩ ∧
    (resolve fsDeployed Method.POST "/").status ≠ 404 := by decide

/-- C3 (amended): a request with no matching route in the registered
table resolves to the fixed not-found fragment with status 404 exactly
in the cases that reach the NotFound handler: a GET whose path is
matched only by the implicit static catch-all (no exact rule, no
slash-redirect variant of a registered route) and whose file is absent
under the root — the ordinary unknown-path case. Other unmatched
combinations yield framework responses that are not the 404 fragment: a
method mismatch yields 405, and a slash variant of a registered route or
a duplicate-slash path yields a 308 redirect. -/
theorem unknown_get_path_yields_404_fragment (fs : FS) (path fname c : String)
    (hex : findExact path = none)
    (hslash : slashRedirects routeTable path = false)
    (hst : staticMatch path = some fname)
    (hmiss : send_static_file fs fname = none)
    (h404 : fs (webRoot ++ "404.html") = some c) :
    resolve fs Method.GET path = ⟨404, c⟩ := by
  unfold resolve resolveWith
  rw [show findExactIn routeTable path = none from hex]
  simp only [hslash, Bool.false_eq_true, if_false]
  rw [hst]
  simp [hmiss, notFoundResponse, renderTemplate, h404]

/-- C3 witness: the amended theorem applied to `GET /no-such-page` — no
exact rule, no slash-redirect, and the static lookup misses — over the
filesystem holding only the 404 template. -/
theorem unknown_get_path_yields_404_fragment_witness :
    resolve fsOnly404 Method.GET "/no-such-page" = ⟨404, "<h1>Not Found</h1>"⟩ :=
  unknown_get_path_yields_404_fragment fsOnly404 "/no-such-page" "no-such-page"
    "<h1>Not Found</h1>" (by decide) (by decide) (by decide) (by decide) (by decide)

/-- C4: over any filesystem in which every registered route's template
file is present and non-empty, resolving each registered route with GET
returns status 200 and a non-empty body. -/
theorem registered_routes_resolve_200_nonempty (fs : FS)
    (hall : ∀ pt ∈ routeTable, ∃ c, fs (webRoot ++ pt.snd) = some c ∧ 0 < c.length) :
    ∀ pt ∈ routeTable,
      (resolve fs Method.GET pt.fst).status = 200 ∧
        0 < (resolve fs Method.GET pt.fst).body.length := by
  intro pt hmem
  obtain ⟨c, hc, hlen⟩ := hall pt hmem
  have h200 : resolve fs Method.GET pt.fst = ⟨200, c⟩ := by
    fin_cases hmem <;> exact resolve_exact_found fs _ _ c (by decide) hc
  rw [h200]
  exact ⟨rfl, hlen⟩

/-- C4 witness: the theorem applied to the index route over the
everywhere-populated filesystem. -/
theorem registered_routes_resolve_200_nonempty_witness :
    (resolve fsConst Method.GET "/").status = 200 ∧
      0 < (resolve fsConst Method.GET "/").body.length :=
  registered_routes_resolve_200_nonempty fsConst
    (fun _ _ => ⟨"x", rfl, by decide⟩) ("/", "index.html") (by decide)

/-- C5: the scroll routes (modelled from the spec; absent from
`src/app/server.py`) return status 200 with a structured payload whose
scroll_distance is -320 for `/scroll-left` and 320 for `/scroll-right`. -/
theorem scroll_routes_payload :
    resolveScroll Method.GET "/scroll-left" = some (200, ⟨-320⟩) ∧
    resolveScroll Method.GET "/scroll-right" = some (200, ⟨320⟩) := by decide

/-- C6: the feedback handler (modelled from the spec; absent from
`src/app/server.py`) on `name="Al"`, `feedback="<script>x</script>"`
returns 200 with a body containing the literal name and the HTML-escaped
feedback, and not containing the raw executable markup. -/
theorem submit_feedback_escapes_markup :
    (submit_feedback (some "Al") (some "<script>x</script>")).status = 200 ∧
    containsSub (submit_feedback (some "Al") (some "<script>x</script>")).body "Al" = true ∧
    containsSub (submit_feedback (some "Al") (some "<script>x</script>")).body
      "&lt;script&gt;x&lt;/script&gt;" = true ∧
    containsSub (submit_feedback (some "Al") (some "<script>x</script>")).body
      "<script>x</script>" = false := by decide

/-- C7 counterexample: the path `/templates/../index.html` contains a
`..` segment, yet resolution returns 200 with the (in-root) index file:
werkzeug's safe_join normalises the name before its traversal check, so
a `..` that stays inside the root is served, not rejected with 404. -/
theorem dotdot_within_root_served_counterexample :
    containsSub "/templates/../index.html" ".." = true ∧
    resolve fsDeployed Method.GET "/templates/../index.html" = ⟨200, "<html>home</html>"⟩ := by
  decide

/-- The slash-redirect condition of the registered table holds only for
the six stripped prefixes of its trailing-slash rules. -/
theorem slashRedirects_routeTable_cases (path : String)
    (hs : slashRedirects routeTable path = true) :
    path = "" ∨ path = "/header" ∨ path = "/footer" ∨ path = "/summary" ∨
      path = "/load-home" ∨ path = "/mission3" := by
  simp only [slashRedirects, routeTable, List.any_cons, List.any_nil,
    Bool.or_eq_true, Bool.or_false] at hs
  rcases hs with h|h|h|h|h|h|h
  · rw [show stripTrailingSlash ("/", "index.html").fst = some "" from by decide] at h
    exact Or.inl (Option.some.inj (eq_of_beq h)).symm
  · rw [show stripTrailingSlash ("/header/", "templates/header.html").fst = some "/header"
      from by decide] at h
    exact Or.inr (Or.inl (Option.some.inj (eq_of_beq h)).symm)
  · rw [show stripTrailingSlash ("/footer/", "templates/footer.html").fst = some "/footer"
      from by decide] at h
    exact Or.inr (Or.inr (Or.inl (Option.some.inj (eq_of_beq h)).symm))
  · rw [show stripTrailingSlash ("/summary/", "templates/summary.html").fst = some "/summary"
      from by decide] at h
    exact Or.inr (Or.inr (Or.inr (Or.inl (Option.some.inj (eq_of_beq h)).symm)))
  · rw [show stripTrailingSlash ("/load-home/", "templates/home.html").fst = some "/load-home"
      from by decide] at h
    exact Or.inr (Or.inr (Or.inr (Or.inr (Or.inl (Option.some.inj (eq_of_beq h)).symm))))
  · rw [show stripTrailingSlash ("/mission3/", "mission3/mission3.html").fst = some "/mission3"
      from by decide] at h
    exact Or.inr (Or.inr (Or.inr (Or.inr (Or.inr (Option.some.inj (eq_of_beq h)).symm))))
  · rw [show stripTrailingSlash ("/mission3/Mission3.html", "mission3/Mission3.html").fst =
      none from by decide] at h
    rw [show ((none : Option String) == some path) = false from rfl] at h
    exact Bool.noConfusion h

/-- C7 (amended): a request on the static catch-all whose captured
filename still escapes the root after normalisation (it normalises to
`..`, to a name starting with `../`, or to an absolute name) resolves to
the 404 handler's response and never to the content of a file outside
the configured root; a `..` segment that normalises away inside the root
may instead be served. -/
theorem traversal_escaping_root_rejected (fs : FS) (path fname : String)
    (hex : findExact path = none) (hst : staticMatch path = some fname)
    (hesc : normEscapes (posixNormpath fname) = true) :
    resolve fs Method.GET path = notFoundResponse fs := by
  unfold resolve resolveWith
  rw [show findExactIn routeTable path = none from hex]
  cases hs : slashRedirects routeTable path with
  | true =>
    rcases slashRedirects_routeTable_cases path hs with rfl | rfl | rfl | rfl | rfl | rfl
    · rw [show staticMatch "" = none from rfl] at hst
      exact Option.noConfusion hst
    · rw [show staticMatch "/header" = some "header" from by decide] at hst
      obtain rfl := Option.some.inj hst
      exact absurd hesc (by decide)
    · rw [show staticMatch "/footer" = some "footer" from by decide] at hst
      obtain rfl := Option.some.inj hst
      exact absurd hesc (by decide)
    · rw [show staticMatch "/summary" = some "summary" from by decide] at hst
      obtain rfl := Option.some.inj hst
      exact absurd hesc (by decide)
    · rw [show staticMatch "/load-home" = some "load-home" from by decide] at hst
      obtain rfl := Option.some.inj hst
      exact absurd hesc (by decide)
    · rw [show staticMatch "/mission3" = some "mission3" from by decide] at hst
      obtain rfl := Option.some.inj hst
      exact absurd hesc (by decide)
  | false =>
    simp only [Bool.false_eq_true, if_false]
    rw [hst]
    cases hb : fname == "" with
    | true =>
      rw [beq_iff_eq] at hb
      subst hb
      exact absurd hesc (by decide)
    | false =>
      simp [send_static_file, safe_join, hb, hesc]

/-- C7 witness: the amended theorem applied to the traversal attempt
`GET /../../etc/passwd` over a filesystem that does contain
`/etc/passwd`; the response is the 404 fragment, not the secret. -/
theorem traversal_escaping_root_rejected_witness :
    resolve fsDeployed Method.GET "/../../etc/passwd" = ⟨404, "<h1>Not Found</h1>"⟩ :=
  (traversal_escaping_root_rejected fsDeployed "/../../etc/passwd" "../../etc/passwd"
    (by decide) (by decide) (by decide)).trans (by decide)

/-- The mount-search loop of DispatcherMiddleware finds the
`/mission3/nutriscore` mount for any path extending it, chopping exactly
the extension into the forwarded PATH_INFO. -/
theorem findMountRev_mission3 (sub dflt : WsgiApp) :
    ∀ (rrev pinfo : List String),
      findMountRev (mission3Mounts sub) dflt (rrev ++ ["nutriscore", "mission3"]) pinfo =
        (sub, ["mission3", "nutriscore"], rrev.reverse ++ pinfo) := by
  intro rrev
  induction rrev with
  | nil => intro pinfo; rfl
  | cons x rs ih =>
    intro pinfo
    have hfalse : ((["mission3", "nutriscore"] : List String) ==
        (x :: (rs ++ ["nutriscore", "mission3"])).reverse) = false := by
      rw [beq_eq_false_iff_ne]
      intro h
      have hl := congrArg List.length h
      simp at hl
    simp only [mission3Mounts] at ih
    simp only [List.cons_append, findMountRev, mission3Mounts, List.find?, List.append_eq,
      hfalse]
    rw [ih (x :: pinfo)]
    simp

/-- C8: for every request whose PATH_INFO extends the delegate mount
prefix `/mission3/nutriscore`, the DispatcherMiddleware built by
`create_app` invokes the embedded chart sub-app on the request with
method and body unmodified (the mount prefix moved to SCRIPT_NAME, the
remainder left as PATH_INFO) and returns the sub-app's response verbatim
— identical status, identical body, for any behaviour of the sub-app. -/
theorem delegate_mount_forwards_unmodified (sub flaskApp : WsgiApp)
    (m : Method) (rest : List String) (b : String) :
    create_app_dispatch sub flaskApp ⟨m, [], ["mission3", "nutriscore"] ++ rest, b⟩ =
      sub ⟨m, ["mission3", "nutriscore"], rest, b⟩ := by
  unfold create_app_dispatch dispatch
  rw [show (["mission3", "nutriscore"] ++ rest).reverse =
      rest.reverse ++ ["nutriscore", "mission3"] from by simp]
  rw [findMountRev_mission3 sub flaskApp rest.reverse []]
  simp

/-- Running any request sequence leaves the route table untouched: no
handler of `src/app/server.py` mutates any state. -/
theorem runRequests_id (fs : FS) (table : List (String × String))
    (reqs : List (Method × String)) :
    runRequests fs table reqs = table := by
  induction reqs with
  | nil => rfl
  | cons r rs ih => exact ih

/-- C9: resolution is deterministic and stateless — after any sequence
of requests the route table is exactly the startup table, and the
response to any request equals the pure resolution of that request
against the startup table, so the same request yields the same response
at any point in any run. -/
theorem resolution_stateless_deterministic (fs : FS) (reqs : List (Method × String))
    (m : Method) (p : String) :
    runRequests fs routeTable reqs = routeTable ∧
    (serverStep fs (runRequests fs routeTable reqs) m p).fst = resolve fs m p := by
  refine ⟨runRequests_id fs routeTable reqs, ?_⟩
  rw [runRequests_id fs routeTable reqs]
  rfl

/-- C2: the module body of `src/app/server.py` never parses — the import
target on line 6 is a filesystem path, not a dot-separated chain of
identifiers — so the module cannot load and no handler is reachable. -/
theorem server_module_never_parses :
    serverModuleParses = false ∧
    isValidModuleRef "/var/www/htmx_website/mission3/scripts/plot_nutriscore" = false := by
  decide

/-- C10: every run of `create_dash_mission3` (and hence of `create_app`,
which calls it first) raises before returning, for every filesystem: if
the CSV is missing, read_csv raises; otherwise the callback registration
evaluates the name `Output`, which is neither imported nor defined, and
raises NameError — the factory can never produce an application. -/
theorem create_app_always_fails (fs : FS) :
    (∃ e, create_dash_mission3_run fs = Except.error e) ∧
    (∃ e, create_app_run fs = Except.error e) := by
  have key : create_dash_mission3_run fs =
      (match fs nutriscoreCsvPath with
       | none => Except.error (PyError.fileNotFound nutriscoreCsvPath)
       | some _ => Except.error (PyError.nameError "Output")) := rfl
  cases hcsv : fs nutriscoreCsvPath with
  | none =>
    have hd : create_dash_mission3_run fs = Except.error (PyError.fileNotFound nutriscoreCsvPath) := by
      rw [key, hcsv]
    exact ⟨⟨_, hd⟩, ⟨_, by unfold create_app_run; rw [hd]⟩⟩
  | some v =>
    have hd : create_dash_mission3_run fs = Except.error (PyError.nameError "Output") := by
      rw [key, hcsv]
    exact ⟨⟨_, hd⟩, ⟨_, by unfold create_app_run; rw [hd]⟩⟩
